import Mathlib

/-!
Shallow embedding of `optuna/visualization/matplotlib/_pareto_front.py`.

The module renders a Pareto front scatter plot.  The embedding models:

* `_ParetoFrontInfo` — the immutable data snapshot produced by the external
  info-extraction collaborator, polymorphic over the trial-identifier type `T`
  and the objective-value type `V` (the renderer only moves values around and
  never computes with them, so `V` stays abstract).
* `Axes` / `Scatter` — the structural content of the matplotlib axes produced
  by a render call: projection dimensionality, title, colormap name, axis
  labels, the sequence of scatter calls (each with per-axis coordinate lists,
  a palette color index and a legend label) and whether `ax.legend()` was
  invoked.
* `PltState` — the process-wide pyplot state touched by the code
  (`plt.style.use` mutates the active style sheet; `plt.subplots` /
  `plt.figure` allocate a fresh figure).  Render functions are state passing:
  they take and return a `PltState`.
* `plot_pareto_front` — the dispatching entry point; the `ValueError` raised
  for an unsupported number of targets becomes `Except.error` carrying the
  formatted message, with the pyplot state returned untouched.

Python sequence indexing `xs[i]` is embedded as `List.getD i default`; the
claims that depend on indices being in range carry the upstream collaborator's
invariant as the `ValidInfo` hypothesis.
-/

namespace ParetoFront

/-- The data contract consumed by the renderer (`_ParetoFrontInfo` named
tuple): number of plotted objective dimensions, display names per raw
dimension, the optional best (non-dominated) and non-best (dominated) trial
groups as `(trial, values)` pairs, and the plotted-position → raw-dimension
permutation `axis_order`. -/
structure _ParetoFrontInfo (T V : Type) where
  n_targets : Nat
  target_names : List String
  best_trials_with_values : Option (List (T × List V))
  non_best_trials_with_values : Option (List (T × List V))
  axis_order : List Nat

/-- One `ax.scatter(...)` call: the coordinate list handed to each plotted
axis (in plotted-axis order: x, y and for 3D z), the colormap index passed as
`color=cmap(i)`, and the `label=` keyword. -/
structure Scatter (V : Type) where
  data : List (List V)
  color : Nat
  label : String

/-- Structural content of the axes object returned to the caller. -/
structure Axes (V : Type) where
  nAxes : Nat
  title : String
  cmapName : String
  axisLabels : List String
  scatters : List (Scatter V)
  legend : Bool

/-- Process-wide pyplot state: the active style sheet (mutated by
`plt.style.use`) and how many figures have been allocated (`plt.subplots` /
`plt.figure`). -/
structure PltState where
  style : String
  nFigures : Nat

/-- Python guard `x is not None and len(x) > 0` used by both groups of the 2D
routine and by the non-best group of the 3D routine. -/
def presentAndLenPos (o : Option (List α)) : Bool :=
  match o with
  | none => false
  | some l => decide (0 < l.length)

/-- Python guard `x is not None and len(x)` (bare integer truthiness) used by
the best group of the 3D routine. -/
def presentAndLenTruthy (o : Option (List α)) : Bool :=
  match o with
  | none => false
  | some l => decide (l.length ≠ 0)

/-- The list comprehension `[values[rawIdx] for _, values in group]`. -/
def coordList [Inhabited V] (rawIdx : Nat) (group : List (T × List V)) : List V :=
  group.map (fun p => p.2.getD rawIdx default)

/-- `ax.has_data()`: some data-producing artist (here, a scatter call) has
been added to the axes. -/
def Axes.hasData (ax : Axes V) : Bool :=
  !ax.scatters.isEmpty

/-- Number of points a single scatter call draws (length of its per-axis
coordinate lists). -/
def Scatter.nPoints (sc : Scatter V) : Nat :=
  (sc.data.headD []).length

/-- Total number of points drawn on the axes across all scatter calls. -/
def numPointsDrawn (ax : Axes V) : Nat :=
  (ax.scatters.map Scatter.nPoints).sum

/-- `_get_pareto_front_2d`: set the ggplot style, allocate a fresh figure,
title the axes, pick the tab10 colormap, label x and y with
`target_names[axis_order[i]]`, scatter the non-best group (color `cmap(0)`,
label "Trial") then the best group (color `cmap(3)`, label "Best Trial"),
each under its presence-and-nonemptiness guard, and call `ax.legend()` iff
the non-best group is not `None` and the axes has data. -/
def _get_pareto_front_2d [Inhabited V] (info : _ParetoFrontInfo T V)
    (s : PltState) : Axes V × PltState :=
  let a0 := info.axis_order.getD 0 0
  let a1 := info.axis_order.getD 1 0
  let nb := info.non_best_trials_with_values
  let b := info.best_trials_with_values
  let scatters : List (Scatter V) :=
    (if presentAndLenPos nb then
      [{ data := [coordList a0 (nb.getD []), coordList a1 (nb.getD [])],
         color := 0, label := "Trial" }]
     else []) ++
    (if presentAndLenPos b then
      [{ data := [coordList a0 (b.getD []), coordList a1 (b.getD [])],
         color := 3, label := "Best Trial" }]
     else [])
  ({ nAxes := 2
     title := "Pareto-front Plot"
     cmapName := "tab10"
     axisLabels := [info.target_names.getD a0 "", info.target_names.getD a1 ""]
     scatters := scatters
     legend := nb.isSome && !scatters.isEmpty },
   { style := "ggplot", nFigures := s.nFigures + 1 })

/-- `_get_pareto_front_3d`: same structure over three axes; note the best
group's guard is written with bare `len(...)` truthiness in the source. -/
def _get_pareto_front_3d [Inhabited V] (info : _ParetoFrontInfo T V)
    (s : PltState) : Axes V × PltState :=
  let a0 := info.axis_order.getD 0 0
  let a1 := info.axis_order.getD 1 0
  let a2 := info.axis_order.getD 2 0
  let nb := info.non_best_trials_with_values
  let b := info.best_trials_with_values
  let scatters : List (Scatter V) :=
    (if presentAndLenPos nb then
      [{ data := [coordList a0 (nb.getD []), coordList a1 (nb.getD []),
                  coordList a2 (nb.getD [])],
         color := 0, label := "Trial" }]
     else []) ++
    (if presentAndLenTruthy b then
      [{ data := [coordList a0 (b.getD []), coordList a1 (b.getD []),
                  coordList a2 (b.getD [])],
         color := 3, label := "Best Trial" }]
     else [])
  ({ nAxes := 3
     title := "Pareto-front Plot"
     cmapName := "tab10"
     axisLabels := [info.target_names.getD a0 "", info.target_names.getD a1 "",
                    info.target_names.getD a2 ""]
     scatters := scatters
     legend := nb.isSome && !scatters.isEmpty },
   { style := "ggplot", nFigures := s.nFigures + 1 })

/-- `plot_pareto_front` after the info snapshot has been produced: dispatch on
`info.n_targets`, raising `ValueError` with the formatted message for any
count other than 2 or 3 before any figure is created. -/
def plot_pareto_front [Inhabited V] (info : _ParetoFrontInfo T V)
    (s : PltState) : Except String (Axes V) × PltState :=
  if info.n_targets = 2 then
    let r := _get_pareto_front_2d info s
    (Except.ok r.1, r.2)
  else if info.n_targets = 3 then
    let r := _get_pareto_front_3d info s
    (Except.ok r.1, r.2)
  else
    (Except.error ("`plot_pareto_front` function only supports 2 or 3 targets." ++
      " you used " ++ toString info.n_targets ++ " targets now."), s)

/-- The upstream collaborator's invariants on the snapshot: `target_names`
and `axis_order` have one entry per target, every `axis_order` entry is an
in-range raw dimension index, and every values tuple in either group has
exactly `n_targets` entries. -/
def ValidInfo (info : _ParetoFrontInfo T V) : Prop :=
  info.target_names.length = info.n_targets ∧
  info.axis_order.length = info.n_targets ∧
  (∀ k ∈ info.axis_order, k < info.n_targets) ∧
  (∀ p ∈ info.best_trials_with_values.getD [], p.2.length = info.n_targets) ∧
  (∀ p ∈ info.non_best_trials_with_values.getD [], p.2.length = info.n_targets)

/-- A scatter call faithfully renders the group `l`: one coordinate list per
plotted axis, each of the group's length, and the coordinate of trial `j` on
plotted axis `i` is entry `axis_order[i]` of that trial's values tuple. -/
def ScatterFaithful [Inhabited V] (info : _ParetoFrontInfo T V)
    (l : List (T × List V)) (sc : Scatter V) : Prop :=
  sc.data.length = info.n_targets ∧
  ∀ i, i < info.n_targets →
    (sc.data.getD i []).length = l.length ∧
    ∀ (j : Nat) (p : T × List V), l[j]? = some p →
      (sc.data.getD i [])[j]? = p.2[info.axis_order.getD i 0]?

/-! ### Helper lemmas -/

/-- The structural output of a render call does not depend on the incoming
pyplot state: the style sheet is rewritten and a fresh figure allocated at
the start of every call. -/
theorem plot_fst_state_irrel [Inhabited V] (info : _ParetoFrontInfo T V)
    (s t : PltState) :
    (plot_pareto_front info s).1 = (plot_pareto_front info t).1 := by
  simp only [plot_pareto_front, _get_pareto_front_2d, _get_pareto_front_3d]
  split_ifs <;> rfl

/-- The two Python spellings of the best-group guard agree. -/
theorem presentAndLenTruthy_eq_pos (o : Option (List α)) :
    presentAndLenTruthy o = presentAndLenPos o := by
  cases o with
  | none => rfl
  | some l => cases l <;> simp [presentAndLenTruthy, presentAndLenPos]

/-- Unfolding of the shared 2D guard. -/
theorem presentAndLenPos_iff (o : Option (List α)) :
    presentAndLenPos o = true ↔ ∃ l, o = some l ∧ 0 < l.length := by
  cases o <;> simp [presentAndLenPos]

/-- Every scatter call the 2D routine issues draws at least one point (each
group is only scattered under its non-emptiness guard). -/
theorem nPoints_pos_2d [Inhabited V] (info : _ParetoFrontInfo T V)
    (s : PltState) :
    ∀ sc ∈ (_get_pareto_front_2d info s).1.scatters, 0 < sc.nPoints := by
  intro sc hsc
  simp only [_get_pareto_front_2d, List.mem_append] at hsc
  rcases hsc with hsc | hsc
  · split_ifs at hsc with hg
    · rcases (presentAndLenPos_iff _).1 hg with ⟨l, hl, hpos⟩
      simp only [List.mem_singleton] at hsc
      subst hsc
      simpa [Scatter.nPoints, coordList, hl] using hpos
    · simp at hsc
  · split_ifs at hsc with hg
    · rcases (presentAndLenPos_iff _).1 hg with ⟨l, hl, hpos⟩
      simp only [List.mem_singleton] at hsc
      subst hsc
      simpa [Scatter.nPoints, coordList, hl] using hpos
    · simp at hsc

/-- Every scatter call the 3D routine issues draws at least one point. -/
theorem nPoints_pos_3d [Inhabited V] (info : _ParetoFrontInfo T V)
    (s : PltState) :
    ∀ sc ∈ (_get_pareto_front_3d info s).1.scatters, 0 < sc.nPoints := by
  intro sc hsc
  simp only [_get_pareto_front_3d, List.mem_append] at hsc
  rcases hsc with hsc | hsc
  · split_ifs at hsc with hg
    · rcases (presentAndLenPos_iff _).1 hg with ⟨l, hl, hpos⟩
      simp only [List.mem_singleton] at hsc
      subst hsc
      simpa [Scatter.nPoints, coordList, hl] using hpos
    · simp at hsc
  · split_ifs at hsc with hg
    · rw [presentAndLenTruthy_eq_pos] at hg
      rcases (presentAndLenPos_iff _).1 hg with ⟨l, hl, hpos⟩
      simp only [List.mem_singleton] at hsc
      subst hsc
      simpa [Scatter.nPoints, coordList, hl] using hpos
    · simp at hsc

/-- On an axes all of whose scatter calls are non-empty, a positive total
point count is the same as the scatter list being non-empty. -/
theorem numPoints_pos_iff (ax : Axes V)
    (h : ∀ sc ∈ ax.scatters, 0 < sc.nPoints) :
    0 < numPointsDrawn ax ↔ ax.scatters ≠ [] := by
  unfold numPointsDrawn
  cases hsc : ax.scatters with
  | nil => simp
  | cons a tl =>
    have ha : 0 < a.nPoints := h a (by rw [hsc]; exact List.mem_cons_self a tl)
    simp only [List.map_cons, List.sum_cons]
    constructor
    · intro _
      exact List.cons_ne_nil a tl
    · intro _
      omega

/-- The 2D legend decision as written in the source: `non_best` not `None`
and `ax.has_data()`. -/
theorem legend_def_2d [Inhabited V] (info : _ParetoFrontInfo T V)
    (s : PltState) :
    (_get_pareto_front_2d info s).1.legend =
      (info.non_best_trials_with_values.isSome &&
        !(_get_pareto_front_2d info s).1.scatters.isEmpty) := rfl

/-- The 3D legend decision as written in the source. -/
theorem legend_def_3d [Inhabited V] (info : _ParetoFrontInfo T V)
    (s : PltState) :
    (_get_pareto_front_3d info s).1.legend =
      (info.non_best_trials_with_values.isSome &&
        !(_get_pareto_front_3d info s).1.scatters.isEmpty) := rfl

/-! ### Claims -/

/-- Claim C1: for every info with `n_targets` 2 or 3, the rendered axes has a
legend iff the non-best group is present (not `None`, possibly empty) and at
least one point was drawn across both groups; otherwise no legend. -/
theorem legend_iff_points [Inhabited V] (info : _ParetoFrontInfo T V)
    (s : PltState) (h : info.n_targets = 2 ∨ info.n_targets = 3) :
    ∃ ax, (plot_pareto_front info s).1 = Except.ok ax ∧
      (ax.legend = true ↔
        info.non_best_trials_with_values.isSome = true ∧
          0 < numPointsDrawn ax) := by
  rcases h with h | h
  · refine ⟨(_get_pareto_front_2d info s).1, by simp [plot_pareto_front, h], ?_⟩
    rw [legend_def_2d, numPoints_pos_iff _ (nPoints_pos_2d info s)]
    simp
  · refine ⟨(_get_pareto_front_3d info s).1, by simp [plot_pareto_front, h], ?_⟩
    rw [legend_def_3d, numPoints_pos_iff _ (nPoints_pos_3d info s)]
    simp

/-- Claim C2: for every info whose `n_targets` is neither 2 nor 3, rendering
fails with the `ValueError` whose message states the offending count, and the
pyplot state is returned untouched (no style change, no figure allocated), so
the error is raised before any drawing surface is created. -/
theorem plot_unsupported_dim [Inhabited V] (info : _ParetoFrontInfo T V)
    (s : PltState) (h2 : info.n_targets ≠ 2) (h3 : info.n_targets ≠ 3) :
    plot_pareto_front info s =
      (Except.error ("`plot_pareto_front` function only supports 2 or 3 targets." ++
        " you used " ++ toString info.n_targets ++ " targets now."), s) := by
  simp [plot_pareto_front, h2, h3]

/-- Claim C6: a second render call on the same info, starting from the pyplot
state the first call left behind, produces a structurally identical result
(same point sets, labels and legend state). -/
theorem plot_idempotent [Inhabited V] (info : _ParetoFrontInfo T V)
    (s : PltState) :
    (plot_pareto_front info ((plot_pareto_front info s).2)).1 =
      (plot_pareto_front info s).1 :=
  plot_fst_state_irrel info _ s

/-- Claim C7: the render is a pure transform of the info snapshot — in this
embedding the snapshot is a read-only value the renderer never writes — and
the shared pyplot state a call leaves behind cannot affect any other render
call: a call on `infoB` after a call on `infoA` returns exactly what a call
on `infoB` from the original state returns. -/
theorem plot_no_interference [Inhabited V] (infoA infoB : _ParetoFrontInfo T V)
    (s : PltState) :
    (plot_pareto_front infoB ((plot_pareto_front infoA s).2)).1 =
      (plot_pareto_front infoB s).1 :=
  plot_fst_state_irrel infoB _ s

/-- Claim C10: the 2D and 3D routines decide whether to draw each group under
equivalent conditions — the scatter calls of the two routines carry the same
labels for every input, and the bare-truthiness guard used by the 3D best
group coincides with the `len(...) > 0` guard, both meaning "the group is not
`None` and has positive length". -/
theorem guards_equivalent [Inhabited V] (info : _ParetoFrontInfo T V)
    (s t : PltState) :
    ((_get_pareto_front_2d info s).1.scatters.map Scatter.label =
      (_get_pareto_front_3d info t).1.scatters.map Scatter.label) ∧
    (∀ o : Option (List (T × List V)),
      presentAndLenTruthy o = presentAndLenPos o ∧
      (presentAndLenPos o = true ↔ ∃ l, o = some l ∧ 0 < l.length)) := by
  constructor
  · simp only [_get_pareto_front_2d, _get_pareto_front_3d,
      presentAndLenTruthy_eq_pos]
    split_ifs <;> rfl
  · intro o
    refine ⟨presentAndLenTruthy_eq_pos o, ?_⟩
    cases o with
    | none => simp [presentAndLenPos]
    | some l => simp [presentAndLenPos]

/-- Any scatter on the 2D axes is the non-best one (drawn under its guard) or
the best one (drawn under its guard). -/
theorem scatter_cases_2d [Inhabited V] (info : _ParetoFrontInfo T V)
    (s : PltState) :
    ∀ sc ∈ (_get_pareto_front_2d info s).1.scatters,
      (presentAndLenPos info.non_best_trials_with_values = true ∧
        sc = { data := [coordList (info.axis_order.getD 0 0)
                          (info.non_best_trials_with_values.getD []),
                        coordList (info.axis_order.getD 1 0)
                          (info.non_best_trials_with_values.getD [])],
               color := 0, label := "Trial" }) ∨
      (presentAndLenPos info.best_trials_with_values = true ∧
        sc = { data := [coordList (info.axis_order.getD 0 0)
                          (info.best_trials_with_values.getD []),
                        coordList (info.axis_order.getD 1 0)
                          (info.best_trials_with_values.getD [])],
               color := 3, label := "Best Trial" }) := by
  intro sc hsc
  simp only [_get_pareto_front_2d, List.mem_append] at hsc
  rcases hsc with hsc | hsc
  · left
    split_ifs at hsc with hg
    · exact ⟨hg, by simpa using hsc⟩
    · simp at hsc
  · right
    split_ifs at hsc with hg
    · exact ⟨hg, by simpa using hsc⟩
    · simp at hsc

/-- Any scatter on the 3D axes is the non-best one or the best one. -/
theorem scatter_cases_3d [Inhabited V] (info : _ParetoFrontInfo T V)
    (s : PltState) :
    ∀ sc ∈ (_get_pareto_front_3d info s).1.scatters,
      (presentAndLenPos info.non_best_trials_with_values = true ∧
        sc = { data := [coordList (info.axis_order.getD 0 0)
                          (info.non_best_trials_with_values.getD []),
                        coordList (info.axis_order.getD 1 0)
                          (info.non_best_trials_with_values.getD []),
                        coordList (info.axis_order.getD 2 0)
                          (info.non_best_trials_with_values.getD [])],
               color := 0, label := "Trial" }) ∨
      (presentAndLenTruthy info.best_trials_with_values = true ∧
        sc = { data := [coordList (info.axis_order.getD 0 0)
                          (info.best_trials_with_values.getD []),
                        coordList (info.axis_order.getD 1 0)
                          (info.best_trials_with_values.getD []),
                        coordList (info.axis_order.getD 2 0)
                          (info.best_trials_with_values.getD [])],
               color := 3, label := "Best Trial" }) := by
  intro sc hsc
  simp only [_get_pareto_front_3d, List.mem_append] at hsc
  rcases hsc with hsc | hsc
  · left
    split_ifs at hsc with hg
    · exact ⟨hg, by simpa using hsc⟩
    · simp at hsc
  · right
    split_ifs at hsc with hg
    · exact ⟨hg, by simpa using hsc⟩
    · simp at hsc

/-- On a valid snapshot, every raw index the axis order designates for a
plotted position is in range. -/
theorem axis_order_getD_lt (info : _ParetoFrontInfo T V) (hv : ValidInfo info)
    (i : Nat) (hi : i < info.n_targets) :
    info.axis_order.getD i 0 < info.n_targets := by
  obtain ⟨-, hlen, hmem, -, -⟩ := hv
  have hi2 : i < info.axis_order.length := by rw [hlen]; exact hi
  have heq : info.axis_order.getD i 0 = info.axis_order[i] := by
    rw [List.getD_eq_getElem?_getD, List.getElem?_eq_getElem hi2]
    rfl
  rw [heq]
  exact hmem _ (List.getElem_mem hi2)

/-- In-range `getD` indexing agrees with `getElem?` indexing. -/
theorem getD_eq_some_getElem (l : List α) (i : Nat) (d : α)
    (h : i < l.length) : l[i]? = some (l.getD i d) := by
  rw [List.getD_eq_getElem?_getD, List.getElem?_eq_getElem h]
  rfl

/-- A coordinate list has one entry per group member, and entry `j` is index
`a` of trial `j`'s values tuple (as long as `a` is in range for it). -/
theorem coordList_faithful [Inhabited V] (a : Nat) (l : List (T × List V))
    (hlen : ∀ p ∈ l, a < p.2.length) :
    (coordList a l).length = l.length ∧
    ∀ (j : Nat) (p : T × List V), l[j]? = some p →
      (coordList (T := T) a l)[j]? = p.2[a]? := by
  constructor
  · simp [coordList]
  · intro j p hj
    have hp : p ∈ l := by
      obtain ⟨hjl, rfl⟩ := List.getElem?_eq_some.1 hj
      exact List.getElem_mem hjl
    have ha : a < p.2.length := hlen p hp
    have hd : p.2.getD a default = p.2[a] := by
      rw [List.getD_eq_getElem?_getD, List.getElem?_eq_getElem ha]
      rfl
    rw [coordList, List.getElem?_map, hj, List.getElem?_eq_getElem ha]
    simp only [Option.map_some', hd]

/-- The 2D scatter record built from a group of full-arity values tuples is
faithful to the group. -/
theorem scatterFaithful_2 [Inhabited V] (info : _ParetoFrontInfo T V)
    (hv : ValidInfo info) (hn : info.n_targets = 2)
    (l : List (T × List V)) (hl : ∀ p ∈ l, p.2.length = info.n_targets)
    (c : Nat) (lbl : String) :
    ScatterFaithful info l
      { data := [coordList (info.axis_order.getD 0 0) l,
                 coordList (info.axis_order.getD 1 0) l],
        color := c, label := lbl } := by
  have harr : ∀ i, i < info.n_targets →
      ∀ p ∈ l, info.axis_order.getD i 0 < p.2.length := by
    intro i hi p hp
    rw [hl p hp]
    exact axis_order_getD_lt info hv i hi
  refine ⟨by simp [hn], ?_⟩
  intro i hi
  rw [hn] at hi
  interval_cases i
  · simpa using coordList_faithful _ l (harr 0 (by omega))
  · simpa using coordList_faithful _ l (harr 1 (by omega))

/-- The 3D scatter record built from a group of full-arity values tuples is
faithful to the group. -/
theorem scatterFaithful_3 [Inhabited V] (info : _ParetoFrontInfo T V)
    (hv : ValidInfo info) (hn : info.n_targets = 3)
    (l : List (T × List V)) (hl : ∀ p ∈ l, p.2.length = info.n_targets)
    (c : Nat) (lbl : String) :
    ScatterFaithful info l
      { data := [coordList (info.axis_order.getD 0 0) l,
                 coordList (info.axis_order.getD 1 0) l,
                 coordList (info.axis_order.getD 2 0) l],
        color := c, label := lbl } := by
  have harr : ∀ i, i < info.n_targets →
      ∀ p ∈ l, info.axis_order.getD i 0 < p.2.length := by
    intro i hi p hp
    rw [hl p hp]
    exact axis_order_getD_lt info hv i hi
  refine ⟨by simp [hn], ?_⟩
  intro i hi
  rw [hn] at hi
  interval_cases i
  · simpa using coordList_faithful _ l (harr 0 (by omega))
  · simpa using coordList_faithful _ l (harr 1 (by omega))
  · simpa using coordList_faithful _ l (harr 2 (by omega))

/-- Claim C5: with the best group present and non-empty, an absent (`None`)
non-best group yields drawn points but no legend, while a present-but-empty
non-best group yields a legend even though zero dominated points (no "Trial"
scatter) were drawn. -/
theorem legend_edge_cases [Inhabited V] (info : _ParetoFrontInfo T V)
    (s : PltState) (h : info.n_targets = 2 ∨ info.n_targets = 3) :
    (info.non_best_trials_with_values = none →
      ∀ l, info.best_trials_with_values = some l → 0 < l.length →
      ∃ ax, (plot_pareto_front info s).1 = Except.ok ax ∧
        0 < numPointsDrawn ax ∧ ax.legend = false) ∧
    (info.non_best_trials_with_values = some [] →
      ∀ l, info.best_trials_with_values = some l → 0 < l.length →
      ∃ ax, (plot_pareto_front info s).1 = Except.ok ax ∧
        ax.legend = true ∧ ∀ sc ∈ ax.scatters, ¬sc.label = "Trial") := by
  constructor
  · intro hnb l hb hl
    rcases h with h | h
    · refine ⟨(_get_pareto_front_2d info s).1,
        by simp [plot_pareto_front, h], ?_, ?_⟩
      · simp [_get_pareto_front_2d, hnb, hb, presentAndLenPos, hl,
          numPointsDrawn, Scatter.nPoints, coordList]
      · simp [legend_def_2d, hnb]
    · refine ⟨(_get_pareto_front_3d info s).1,
        by simp [plot_pareto_front, h], ?_, ?_⟩
      · simp [_get_pareto_front_3d, hnb, hb, presentAndLenTruthy,
          Nat.pos_iff_ne_zero.1 hl, numPointsDrawn, Scatter.nPoints,
          coordList, hl]
      · simp [legend_def_3d, hnb]
  · intro hnb l hb hl
    rcases h with h | h
    · refine ⟨(_get_pareto_front_2d info s).1,
        by simp [plot_pareto_front, h], ?_, ?_⟩
      · simp [legend_def_2d, hnb, _get_pareto_front_2d, presentAndLenPos,
          hb, hl]
      · intro sc hsc
        rcases scatter_cases_2d info s sc hsc with ⟨hg, heq⟩ | ⟨hg, heq⟩
        · rw [hnb] at hg
          simp [presentAndLenPos] at hg
        · simp [heq]
    · refine ⟨(_get_pareto_front_3d info s).1,
        by simp [plot_pareto_front, h], ?_, ?_⟩
      · simp [legend_def_3d, hnb, _get_pareto_front_3d, presentAndLenTruthy,
          hb, Nat.pos_iff_ne_zero.1 hl]
      · intro sc hsc
        rcases scatter_cases_3d info s sc hsc with ⟨hg, heq⟩ | ⟨hg, heq⟩
        · rw [hnb] at hg
          simp [presentAndLenPos] at hg
        · simp [heq]

/-- Claim C8: in both 2D and 3D renderings the two groups are styled with the
same fixed pair of distinct tab10 palette colors: every scatter is either the
non-best one (label "Trial", color index 0) or the best one (label
"Best Trial", color index 3), and each present non-empty group does receive
its fixed color. -/
theorem group_colors_fixed [Inhabited V] (info : _ParetoFrontInfo T V)
    (s : PltState) (h : info.n_targets = 2 ∨ info.n_targets = 3) :
    ∃ ax, (plot_pareto_front info s).1 = Except.ok ax ∧
      ax.cmapName = "tab10" ∧
      (∀ sc ∈ ax.scatters,
        (sc.label = "Trial" ∧ sc.color = 0) ∨
        (sc.label = "Best Trial" ∧ sc.color = 3)) ∧
      (∀ l, info.non_best_trials_with_values = some l → 0 < l.length →
        ∃ sc ∈ ax.scatters, sc.label = "Trial" ∧ sc.color = 0) ∧
      (∀ l, info.best_trials_with_values = some l → 0 < l.length →
        ∃ sc ∈ ax.scatters, sc.label = "Best Trial" ∧ sc.color = 3) := by
  rcases h with h | h
  · refine ⟨(_get_pareto_front_2d info s).1,
      by simp [plot_pareto_front, h], rfl, ?_, ?_, ?_⟩
    · intro sc hsc
      rcases scatter_cases_2d info s sc hsc with ⟨_, heq⟩ | ⟨_, heq⟩
      · left; simp [heq]
      · right; simp [heq]
    · intro l hl hpos
      refine ⟨{ data := [coordList (info.axis_order.getD 0 0) l,
                         coordList (info.axis_order.getD 1 0) l],
                color := 0, label := "Trial" }, ?_, rfl, rfl⟩
      simp only [_get_pareto_front_2d]
      refine List.mem_append_left _ ?_
      simp [presentAndLenPos, hl, hpos]
    · intro l hl hpos
      refine ⟨{ data := [coordList (info.axis_order.getD 0 0) l,
                         coordList (info.axis_order.getD 1 0) l],
                color := 3, label := "Best Trial" }, ?_, rfl, rfl⟩
      simp only [_get_pareto_front_2d]
      refine List.mem_append_right _ ?_
      simp [presentAndLenPos, hl, hpos]
  · refine ⟨(_get_pareto_front_3d info s).1,
      by simp [plot_pareto_front, h], rfl, ?_, ?_, ?_⟩
    · intro sc hsc
      rcases scatter_cases_3d info s sc hsc with ⟨_, heq⟩ | ⟨_, heq⟩
      · left; simp [heq]
      · right; simp [heq]
    · intro l hl hpos
      refine ⟨{ data := [coordList (info.axis_order.getD 0 0) l,
                         coordList (info.axis_order.getD 1 0) l,
                         coordList (info.axis_order.getD 2 0) l],
                color := 0, label := "Trial" }, ?_, rfl, rfl⟩
      simp only [_get_pareto_front_3d]
      refine List.mem_append_left _ ?_
      simp [presentAndLenPos, hl, hpos]
    · intro l hl hpos
      refine ⟨{ data := [coordList (info.axis_order.getD 0 0) l,
                         coordList (info.axis_order.getD 1 0) l,
                         coordList (info.axis_order.getD 2 0) l],
                color := 3, label := "Best Trial" }, ?_, rfl, rfl⟩
      simp only [_get_pareto_front_3d]
      refine List.mem_append_right _ ?_
      simp [presentAndLenTruthy, hl, Nat.pos_iff_ne_zero.1 hpos]

/-- Claim C9: whenever both groups are present and non-empty, in 2D and 3D
alike the scatter list is exactly the non-best scatter followed by the best
scatter, so the best points are added last. -/
theorem nonbest_drawn_first [Inhabited V] (info : _ParetoFrontInfo T V)
    (s : PltState) (h : info.n_targets = 2 ∨ info.n_targets = 3)
    (lnb lb : List (T × List V))
    (hnb : info.non_best_trials_with_values = some lnb) (h1 : 0 < lnb.length)
    (hb : info.best_trials_with_values = some lb) (h2 : 0 < lb.length) :
    ∃ ax sc1 sc2, (plot_pareto_front info s).1 = Except.ok ax ∧
      ax.scatters = [sc1, sc2] ∧
      sc1.label = "Trial" ∧ sc2.label = "Best Trial" := by
  rcases h with h | h
  · refine ⟨(_get_pareto_front_2d info s).1,
      { data := [coordList (info.axis_order.getD 0 0) lnb,
                 coordList (info.axis_order.getD 1 0) lnb],
        color := 0, label := "Trial" },
      { data := [coordList (info.axis_order.getD 0 0) lb,
                 coordList (info.axis_order.getD 1 0) lb],
        color := 3, label := "Best Trial" },
      by simp [plot_pareto_front, h], ?_, rfl, rfl⟩
    simp [_get_pareto_front_2d, hnb, hb, presentAndLenPos, h1, h2]
  · refine ⟨(_get_pareto_front_3d info s).1,
      { data := [coordList (info.axis_order.getD 0 0) lnb,
                 coordList (info.axis_order.getD 1 0) lnb,
                 coordList (info.axis_order.getD 2 0) lnb],
        color := 0, label := "Trial" },
      { data := [coordList (info.axis_order.getD 0 0) lb,
                 coordList (info.axis_order.getD 1 0) lb,
                 coordList (info.axis_order.getD 2 0) lb],
        color := 3, label := "Best Trial" },
      by simp [plot_pareto_front, h], ?_, rfl, rfl⟩
    simp [_get_pareto_front_3d, hnb, hb, presentAndLenPos,
      presentAndLenTruthy, h1, Nat.pos_iff_ne_zero.1 h2]

/-- Claim C3: for every valid info with `n_targets` 2 (resp. 3), the renderer
draws into a 2-axis (resp. 3-axis) surface, each present non-empty group gets
a scatter whose per-axis coordinate lists have the group's length, and the
coordinate of each drawn trial on plotted axis `i` is entry `axis_order[i]`
of that trial's values tuple. -/
theorem points_coordinates [Inhabited V] (info : _ParetoFrontInfo T V)
    (s : PltState) (hv : ValidInfo info)
    (h : info.n_targets = 2 ∨ info.n_targets = 3) :
    ∃ ax, (plot_pareto_front info s).1 = Except.ok ax ∧
      ax.nAxes = info.n_targets ∧
      (∀ l, info.non_best_trials_with_values = some l → 0 < l.length →
        ∃ sc ∈ ax.scatters, sc.label = "Trial" ∧ ScatterFaithful info l sc) ∧
      (∀ l, info.best_trials_with_values = some l → 0 < l.length →
        ∃ sc ∈ ax.scatters, sc.label = "Best Trial" ∧
          ScatterFaithful info l sc) := by
  rcases h with h | h
  · refine ⟨(_get_pareto_front_2d info s).1,
      by simp [plot_pareto_front, h], by rw [h]; rfl, ?_, ?_⟩
    · intro l hl hpos
      refine ⟨{ data := [coordList (info.axis_order.getD 0 0) l,
                         coordList (info.axis_order.getD 1 0) l],
                color := 0, label := "Trial" }, ?_, rfl, ?_⟩
      · simp only [_get_pareto_front_2d]
        refine List.mem_append_left _ ?_
        simp [presentAndLenPos, hl, hpos]
      · refine scatterFaithful_2 info hv h l ?_ 0 "Trial"
        intro p hp
        exact hv.2.2.2.2 p (by rw [hl]; exact hp)
    · intro l hl hpos
      refine ⟨{ data := [coordList (info.axis_order.getD 0 0) l,
                         coordList (info.axis_order.getD 1 0) l],
                color := 3, label := "Best Trial" }, ?_, rfl, ?_⟩
      · simp only [_get_pareto_front_2d]
        refine List.mem_append_right _ ?_
        simp [presentAndLenPos, hl, hpos]
      · refine scatterFaithful_2 info hv h l ?_ 3 "Best Trial"
        intro p hp
        exact hv.2.2.2.1 p (by rw [hl]; exact hp)
  · refine ⟨(_get_pareto_front_3d info s).1,
      by simp [plot_pareto_front, h], by rw [h]; rfl, ?_, ?_⟩
    · intro l hl hpos
      refine ⟨{ data := [coordList (info.axis_order.getD 0 0) l,
                         coordList (info.axis_order.getD 1 0) l,
                         coordList (info.axis_order.getD 2 0) l],
                color := 0, label := "Trial" }, ?_, rfl, ?_⟩
      · simp only [_get_pareto_front_3d]
        refine List.mem_append_left _ ?_
        simp [presentAndLenPos, hl, hpos]
      · refine scatterFaithful_3 info hv h l ?_ 0 "Trial"
        intro p hp
        exact hv.2.2.2.2 p (by rw [hl]; exact hp)
    · intro l hl hpos
      refine ⟨{ data := [coordList (info.axis_order.getD 0 0) l,
                         coordList (info.axis_order.getD 1 0) l,
                         coordList (info.axis_order.getD 2 0) l],
                color := 3, label := "Best Trial" }, ?_, rfl, ?_⟩
      · simp only [_get_pareto_front_3d]
        refine List.mem_append_right _ ?_
        simp [presentAndLenTruthy, hl, Nat.pos_iff_ne_zero.1 hpos]
      · refine scatterFaithful_3 info hv h l ?_ 3 "Best Trial"
        intro p hp
        exact hv.2.2.2.1 p (by rw [hl]; exact hp)

/-- Claim C4: for every valid info with `n_targets` 2 or 3, the plotted axis
at position `i` is labeled with `target_names[axis_order[i]]`: the raw
objective at index `axis_order[i]` is displayed at plotted position `i`. -/
theorem axis_labels_reordered [Inhabited V] (info : _ParetoFrontInfo T V)
    (s : PltState) (hv : ValidInfo info)
    (h : info.n_targets = 2 ∨ info.n_targets = 3) :
    ∃ ax, (plot_pareto_front info s).1 = Except.ok ax ∧
      ax.axisLabels.length = info.n_targets ∧
      ∀ i, i < info.n_targets →
        ax.axisLabels[i]? = info.target_names[info.axis_order.getD i 0]? := by
  have hlt : ∀ k, k < info.n_targets →
      info.axis_order.getD k 0 < info.target_names.length := by
    intro k hk
    rw [hv.1]
    exact axis_order_getD_lt info hv k hk
  rcases h with h | h
  · refine ⟨(_get_pareto_front_2d info s).1,
      by simp [plot_pareto_front, h], by rw [h]; rfl, ?_⟩
    intro i hi
    rw [h] at hi
    interval_cases i
    · rw [getD_eq_some_getElem info.target_names _ ""
        (hlt 0 (by rw [h]; omega))]
      rfl
    · rw [getD_eq_some_getElem info.target_names _ ""
        (hlt 1 (by rw [h]; omega))]
      rfl
  · refine ⟨(_get_pareto_front_3d info s).1,
      by simp [plot_pareto_front, h], by rw [h]; rfl, ?_⟩
    intro i hi
    rw [h] at hi
    interval_cases i
    · rw [getD_eq_some_getElem info.target_names _ ""
        (hlt 0 (by rw [h]; omega))]
      rfl
    · rw [getD_eq_some_getElem info.target_names _ ""
        (hlt 1 (by rw [h]; omega))]
      rfl
    · rw [getD_eq_some_getElem info.target_names _ ""
        (hlt 2 (by rw [h]; omega))]
      rfl

/-! ### Concrete snapshots used by the witnesses -/

/-- Initial pyplot state for the witnesses. -/
def wState : PltState :=
  { style := "classic", nFigures := 0 }

/-- A valid 2-target snapshot with both groups present and non-empty and a
swapped axis order. -/
def wInfo2 : _ParetoFrontInfo Nat Int :=
  { n_targets := 2
    target_names := ["A", "B"]
    best_trials_with_values := some [(1, [10, 20])]
    non_best_trials_with_values := some [(2, [30, 40])]
    axis_order := [1, 0] }

/-- A valid 2-target snapshot whose non-best group is present but empty. -/
def wInfoEmptyNB : _ParetoFrontInfo Nat Int :=
  { n_targets := 2
    target_names := ["A", "B"]
    best_trials_with_values := some [(1, [10, 20])]
    non_best_trials_with_values := some []
    axis_order := [0, 1] }

/-- A snapshot with an unsupported number of targets. -/
def wInfo4 : _ParetoFrontInfo Nat Int :=
  { n_targets := 4
    target_names := []
    best_trials_with_values := none
    non_best_trials_with_values := none
    axis_order := [] }

/-! ### Witnesses -/

/-- Witness for claim C1 at a concrete valid 2-target snapshot. -/
theorem legend_iff_points_witness :
    (wInfo2.n_targets = 2 ∨ wInfo2.n_targets = 3) ∧
    ∃ ax, (plot_pareto_front wInfo2 wState).1 = Except.ok ax ∧
      (ax.legend = true ↔
        wInfo2.non_best_trials_with_values.isSome = true ∧
          0 < numPointsDrawn ax) :=
  ⟨Or.inl rfl, legend_iff_points wInfo2 wState (Or.inl rfl)⟩

/-- Witness for claim C2 at a concrete 4-target snapshot. -/
theorem plot_unsupported_dim_witness :
    wInfo4.n_targets ≠ 2 ∧ wInfo4.n_targets ≠ 3 ∧
    plot_pareto_front wInfo4 wState =
      (Except.error ("`plot_pareto_front` function only supports 2 or 3 targets." ++
        " you used " ++ toString wInfo4.n_targets ++ " targets now."), wState) :=
  ⟨by decide, by decide,
    plot_unsupported_dim wInfo4 wState (by decide) (by decide)⟩

/-- Witness for claim C3 at a concrete valid 2-target snapshot. -/
theorem points_coordinates_witness :
    ValidInfo wInfo2 ∧ (wInfo2.n_targets = 2 ∨ wInfo2.n_targets = 3) ∧
    ∃ ax, (plot_pareto_front wInfo2 wState).1 = Except.ok ax ∧
      ax.nAxes = wInfo2.n_targets ∧
      (∀ l, wInfo2.non_best_trials_with_values = some l → 0 < l.length →
        ∃ sc ∈ ax.scatters, sc.label = "Trial" ∧
          ScatterFaithful wInfo2 l sc) ∧
      (∀ l, wInfo2.best_trials_with_values = some l → 0 < l.length →
        ∃ sc ∈ ax.scatters, sc.label = "Best Trial" ∧
          ScatterFaithful wInfo2 l sc) :=
  ⟨by unfold ValidInfo; decide, Or.inl rfl,
    points_coordinates wInfo2 wState (by unfold ValidInfo; decide) (Or.inl rfl)⟩

/-- Witness for claim C4 at a concrete valid 2-target snapshot. -/
theorem axis_labels_reordered_witness :
    ValidInfo wInfo2 ∧ (wInfo2.n_targets = 2 ∨ wInfo2.n_targets = 3) ∧
    ∃ ax, (plot_pareto_front wInfo2 wState).1 = Except.ok ax ∧
      ax.axisLabels.length = wInfo2.n_targets ∧
      ∀ i, i < wInfo2.n_targets →
        ax.axisLabels[i]? =
          wInfo2.target_names[wInfo2.axis_order.getD i 0]? :=
  ⟨by unfold ValidInfo; decide, Or.inl rfl,
    axis_labels_reordered wInfo2 wState (by unfold ValidInfo; decide) (Or.inl rfl)⟩

/-- Witness for claim C5 at a concrete snapshot with a present-but-empty
non-best group. -/
theorem legend_edge_cases_witness :
    (wInfoEmptyNB.n_targets = 2 ∨ wInfoEmptyNB.n_targets = 3) ∧
    ((wInfoEmptyNB.non_best_trials_with_values = none →
      ∀ l, wInfoEmptyNB.best_trials_with_values = some l → 0 < l.length →
      ∃ ax, (plot_pareto_front wInfoEmptyNB wState).1 = Except.ok ax ∧
        0 < numPointsDrawn ax ∧ ax.legend = false) ∧
    (wInfoEmptyNB.non_best_trials_with_values = some [] →
      ∀ l, wInfoEmptyNB.best_trials_with_values = some l → 0 < l.length →
      ∃ ax, (plot_pareto_front wInfoEmptyNB wState).1 = Except.ok ax ∧
        ax.legend = true ∧ ∀ sc ∈ ax.scatters, ¬sc.label = "Trial")) :=
  ⟨Or.inl rfl, legend_edge_cases wInfoEmptyNB wState (Or.inl rfl)⟩

/-- Witness for claim C8 at a concrete valid 2-target snapshot. -/
theorem group_colors_fixed_witness :
    (wInfo2.n_targets = 2 ∨ wInfo2.n_targets = 3) ∧
    ∃ ax, (plot_pareto_front wInfo2 wState).1 = Except.ok ax ∧
      ax.cmapName = "tab10" ∧
      (∀ sc ∈ ax.scatters,
        (sc.label = "Trial" ∧ sc.color = 0) ∨
        (sc.label = "Best Trial" ∧ sc.color = 3)) ∧
      (∀ l, wInfo2.non_best_trials_with_values = some l → 0 < l.length →
        ∃ sc ∈ ax.scatters, sc.label = "Trial" ∧ sc.color = 0) ∧
      (∀ l, wInfo2.best_trials_with_values = some l → 0 < l.length →
        ∃ sc ∈ ax.scatters, sc.label = "Best Trial" ∧ sc.color = 3) :=
  ⟨Or.inl rfl, group_colors_fixed wInfo2 wState (Or.inl rfl)⟩

/-- Witness for claim C9 at a concrete snapshot with both groups present and
non-empty. -/
theorem nonbest_drawn_first_witness :
    (wInfo2.n_targets = 2 ∨ wInfo2.n_targets = 3) ∧
    wInfo2.non_best_trials_with_values = some [(2, [30, 40])] ∧
    (0 : Nat) < [((2 : Nat), [(30 : Int), 40])].length ∧
    wInfo2.best_trials_with_values = some [(1, [10, 20])] ∧
    (0 : Nat) < [((1 : Nat), [(10 : Int), 20])].length ∧
    ∃ ax sc1 sc2, (plot_pareto_front wInfo2 wState).1 = Except.ok ax ∧
      ax.scatters = [sc1, sc2] ∧
      sc1.label = "Trial" ∧ sc2.label = "Best Trial" :=
  ⟨Or.inl rfl, rfl, by decide, rfl, by decide,
    nonbest_drawn_first wInfo2 wState (Or.inl rfl)
      [(2, [30, 40])] [(1, [10, 20])] rfl (by decide) rfl (by decide)⟩

end ParetoFront
